import Mathlib

/-!
# GeoPulse — verification of the spatial data pipeline and retail scanner

Shallow embedding of the GeoPulse repository's core logic:

* the Overpass retail scanner (`executeOverpassQuery`, `fetchRetailStoresBounded`)
  with its retry / quadrant-splitting policy, instrumented with an event trace
  (requests, waits, recursion entries) so that pacing, backoff and recursion
  depth are observable;
* the OSM element → store-feature transformation (rating extraction,
  deterministic synthetic rating, geocode derivation);
* the synthetic village generator (taluk polygons, curated gazetteer,
  rejection sampling, geocode counter);
* the CSV export (`convertToCSV`) and the CSV import / merge-by-geocode logic.

Numbers are modelled as exact rationals (ℚ).  JavaScript's `NaN` has no
rational counterpart; the places where the source tests for `NaN` are noted
in comments.  Platform functions (`Math.sin`, `Math.cos`, `Math.PI`,
`Math.random`, the browser's abort-error message) are passed in as explicit
environment parameters, since their values are supplied by the runtime and
not by the repository.
-/

namespace GeoPulse

/-! ## String helpers

`strIncludes s pat` models JavaScript `s.includes(pat)` (substring test). -/

def charsHavePre : List Char → List Char → Bool
  | _, [] => true
  | [], _ :: _ => false
  | c :: cs, p :: ps => c == p && charsHavePre cs ps

def charsContain : List Char → List Char → Bool
  | [], pat => pat.isEmpty
  | c :: rest, pat => charsHavePre (c :: rest) pat || charsContain rest pat

def strIncludes (s pat : String) : Bool := charsContain s.data pat.data

/-! ## JavaScript numeric helpers -/

/-- Digits of a character list read as a natural number (used by the
`replace(/\D/g,'')` + `parseInt` idiom). -/
def digitsToNat (l : List Char) : Nat := l.foldl (fun a c => 10 * a + (c.toNat - 48)) 0

/-- `parseInt(s)` on a string that starts with digits: the maximal digit
 prefix read as a natural number (the source only applies it to
 `String(element.id)` where `element.id` is a non-negative integer). -/
def jsParseIntNat (s : String) : Nat := digitsToNat (s.data.takeWhile Char.isDigit)

/-- `parseInt(s.replace(/\D/g, '')) || 0`: all digit characters of `s`
 concatenated and read as a natural number, `0` when there are none. -/
def jsParseIntDigits (s : String) : Nat := digitsToNat (s.data.filter Char.isDigit)

/-- JavaScript `parseFloat`: maximal numeric prefix after optional leading
whitespace and sign; `none` models `NaN` (no digit could be read).
Exponent notation is not modelled — no value in the repository uses it. -/
def jsParseFloat (s : String) : Option ℚ :=
  let cs0 := s.data.dropWhile Char.isWhitespace
  let neg : Bool := cs0.headD ' ' == '-'
  let cs := if neg || (cs0.headD ' ' == '+') then cs0.tail else cs0
  let ip := cs.takeWhile Char.isDigit
  let rest := cs.dropWhile Char.isDigit
  let fp := if rest.headD ' ' == '.' then rest.tail.takeWhile Char.isDigit else []
  if ip.isEmpty && fp.isEmpty then none
  else
    let mag : ℚ := (digitsToNat ip : ℚ) + (digitsToNat fp : ℚ) / 10 ^ fp.length
    some (if neg then -mag else mag)

/-- JavaScript `Math.round`: round half away from zero upwards, i.e. ⌊x + 1/2⌋. -/
def jsRound (x : ℚ) : ℤ := ⌊x + 1 / 2⌋

/-- JavaScript truthiness of an optional string: present and non-empty. -/
def jsTruthy : Option String → Bool
  | some s => !s.isEmpty
  | none => false

/-- JavaScript truthiness of an optional number: present and non-zero
 (`NaN`, also falsy, has no rational counterpart). -/
def numTruthy : Option ℚ → Bool
  | some q => decide (¬q = 0)
  | none => false

/-! ## OSM elements and store features (`osmPlaces`) -/

/-- The tag keys of an Overpass element that the rating logic reads
 (`tags.stars`, `tags.rating`, `tags['addr:rate']`).  The remaining tags
 (name, address, contact, …) only feed presentation-only attributes and are
 omitted from the model. -/
structure OsmTags where
  stars : Option String := none
  rating : Option String := none
  addrRate : Option String := none
deriving DecidableEq, Repr

/-- An Overpass API element.  `center` of a way is flattened to the two
 optional fields `centerLat` / `centerLon`. -/
structure OsmElement where
  etype : String := "node"
  id : Nat
  lat : Option ℚ := none
  lon : Option ℚ := none
  centerLat : Option ℚ := none
  centerLon : Option ℚ := none
  tags : OsmTags := {}
deriving DecidableEq, Repr

/-- Environment of platform-supplied values used by the scanner:
 `Math.sin` for the deterministic rating hash, `Math.random() * 1000`
 jitter drawn before each 429 retry (indexed by the attempt number), and the
 browser's message for an aborted fetch (`AbortError`). -/
structure ScanEnv where
  sinF : ℚ → ℚ
  jitter : Nat → ℚ
  abortMsg : String

/-- The fields of a produced store `GeoFeature` that the claims are about:
 feature id, geocode, rating, user-rating count and the point coordinates.
 Presentation-only attributes (name, category, vicinity, contact data) are
 omitted. -/
structure StoreFeature where
  fid : String
  geocode : String
  rating : ℚ
  userRatingsTotal : Nat
  coordLng : Option ℚ := none
  coordLat : Option ℚ := none
deriving DecidableEq, Repr

/-- The rating the source parses from the tags: the chain
 `if (tags.stars) … else if (tags.rating) … else if (tags['addr:rate']) …`
 tests truthiness of the raw string first and only then parses it; a truthy
 but unparseable value stops the chain with no rating. -/
def extractTagRating (t : OsmTags) : Option ℚ :=
  if jsTruthy t.stars then jsParseFloat (t.stars.getD "")
  else if jsTruthy t.rating then jsParseFloat (t.rating.getD "")
  else if jsTruthy t.addrRate then jsParseFloat (t.addrRate.getD "")
  else none

/-- Deterministic synthetic rating: `seed = Math.sin(idNum) * 10000`,
 `rand = seed - Math.floor(seed)`, `rating = 3.5 + rand * 1.5` rounded to one
 decimal. -/
def stableRatingFromId (sinF : ℚ → ℚ) (idNum : Nat) : ℚ :=
  let seed := sinF (idNum : ℚ) * 10000
  let rand := seed - (⌊seed⌋ : ℚ)
  let r := 35 / 10 + rand * (15 / 10)
  (jsRound (r * 10) : ℚ) / 10

/-- `transformToGeoFeature` of `osmPlaces`: ways take their coordinates from
 `center`; the rating is the parsed tag rating (halved when above 5) or the
 synthetic rating; the feature id is the element id with prefix `osm-` and
 the geocode is `OSM-` followed by `String(element.id).substring(0, 6)`. -/
def transformToGeoFeature (env : ScanEnv) (el : OsmElement) : StoreFeature :=
  let isWay := el.etype == "way"
  let lat := if isWay then el.centerLat else el.lat
  let lng := if isWay then el.centerLon else el.lon
  let rating : ℚ :=
    match extractTagRating el.tags with
    | some r => if 5 < r then r / 2 else r
    | none => stableRatingFromId env.sinF (jsParseIntDigits (toString el.id))
  let userRatings := (⌊|env.sinF (jsParseIntNat (toString el.id) : ℚ)| * 500⌋).toNat + 5
  { fid := "osm-" ++ toString el.id
    geocode := "OSM-" ++ (toString el.id).take 6
    rating := rating
    userRatingsTotal := userRatings
    coordLng := lng
    coordLat := lat }

/-- The element filter before transformation:
 `(el.lat && el.lon) || (el.center?.lat && el.center?.lon)`. -/
def elementHasCoords (el : OsmElement) : Bool :=
  (numTruthy el.lat && numTruthy el.lon) || (numTruthy el.centerLat && numTruthy el.centerLon)

/-! ## The Overpass query executor and the bounded scan -/

/-- A bounding box `(south, west, north, east)`.  The Overpass QL query text
 is a fixed template around these four numbers, so the model keys the server
 on the box itself. -/
structure BBox where
  south : ℚ
  west : ℚ
  north : ℚ
  east : ℚ
deriving DecidableEq, Repr

/-- One response of the external endpoint: a successful element list, an HTTP
 error status, or a client-side fetch abort (the 120 s timeout). -/
inductive OsmResp where
  | ok (elements : List OsmElement)
  | httpError (status : Nat)
  | abortError
deriving DecidableEq, Repr

/-- The mocked endpoint: response per bounding box and per attempt number. -/
def Server : Type := BBox → Nat → OsmResp

/-- A thrown JavaScript `Error`: its `name` and `message`. -/
structure ErrObj where
  name : String
  message : String
deriving DecidableEq, Repr

def osmErr (status : Nat) : ErrObj := ⟨"Error", "OSM_ERROR_" ++ toString status⟩

/-- Observable events of a scan, used to state pacing/backoff/recursion
 claims: a request to the endpoint (tagged with the recursion depth of the
 bounded call that issued it), a `setTimeout` wait in milliseconds, and entry
 into a bounded call at a given depth. -/
inductive ScanEvent where
  | request (depth : Nat) (b : BBox) (attempt : Nat)
  | wait (ms : ℚ)
  | enter (depth : Nat)
deriving DecidableEq, Repr

abbrev Trace := List ScanEvent

/-- `executeOverpassQuery`: one request, then
 * HTTP 429 with `attempt ≤ 5`: wait `3000·2^(attempt-1) + jitter` and retry;
 * HTTP 504/502 with `attempt ≤ 2`: wait 2000 ms and retry;
 * any other non-OK status: throw `OSM_ERROR_<status>`;
 * fetch abort with `attempt ≤ 2`: retry immediately, else rethrow.
 The `depth` argument is instrumentation only (it tags the request events). -/
def executeOverpassQuery (server : Server) (env : ScanEnv) (depth : Nat) (b : BBox)
    (attempt : Nat) : Except ErrObj (List StoreFeature) × Trace :=
  let ev : Trace := [.request depth b attempt]
  match server b attempt with
  | .ok elements =>
      (.ok ((elements.filter elementHasCoords).map (transformToGeoFeature env)), ev)
  | .httpError status =>
      if h429 : status = 429 ∧ attempt ≤ 5 then
        let d := 3000 * 2 ^ (attempt - 1) + env.jitter attempt
        let r := executeOverpassQuery server env depth b (attempt + 1)
        (r.1, ev ++ [.wait d] ++ r.2)
      else if h50x : (status = 504 ∨ status = 502) ∧ attempt ≤ 2 then
        let r := executeOverpassQuery server env depth b (attempt + 1)
        (r.1, ev ++ [.wait 2000] ++ r.2)
      else (.error (osmErr status), ev)
  | .abortError =>
      if _hab : attempt ≤ 2 then
        let r := executeOverpassQuery server env depth b (attempt + 1)
        (r.1, ev ++ r.2)
      else (.error ⟨"AbortError", env.abortMsg⟩, ev)
termination_by 6 - attempt
decreasing_by
  · omega
  · omega
  · omega

/-- The error `fetchRetailStoresBounded` rethrows when the retry budget for a
 429 is exhausted. -/
def busyError : ErrObj :=
  ⟨"Error", "Server is too busy (Rate Limit). Please wait a few minutes and try again."⟩

/-- The check deciding whether a failed query is split into quadrants:
 `errorMsg.includes('OSM_ERROR_504') || includes('OSM_ERROR_502') || includes('timeout')`. -/
def splitEligible (e : ErrObj) : Bool :=
  strIncludes e.message "OSM_ERROR_504" || strIncludes e.message "OSM_ERROR_502" ||
    strIncludes e.message "timeout"

/-- One iteration of the quadrant loop: a successful quadrant contributes its
 features followed by the 200 ms pacing wait; a failed quadrant is caught and
 contributes nothing. -/
def absorbQuadrant : Except ErrObj (List StoreFeature) × Trace → List StoreFeature × Trace
  | (.ok l, t) => (l, t ++ [.wait 200])
  | (.error _, t) => ([], t)

/-- `fetchRetailStoresBounded`: query the box; on failure rethrow a
 rate-limit failure, else split into the four midpoint quadrants (SW, SE, NW,
 NE, sequentially) when the error is split-eligible and `depth < 2`;
 otherwise absorb the failure into an empty list at `depth > 0` and rethrow
 at `depth = 0`. -/
def fetchRetailStoresBounded (server : Server) (env : ScanEnv)
    (south west north east : ℚ) (depth : Nat) :
    Except ErrObj (List StoreFeature) × Trace :=
  let r0 := executeOverpassQuery server env depth ⟨south, west, north, east⟩ 1
  let t : Trace := ScanEvent.enter depth :: r0.2
  match r0.1 with
  | .ok features => (.ok features, t)
  | .error err =>
      if strIncludes err.message "OSM_ERROR_429" then (.error busyError, t)
      else if _hsplit : splitEligible err = true ∧ depth < 2 then
        let midLat := (south + north) / 2
        let midLng := (west + east) / 2
        let q1 := absorbQuadrant (fetchRetailStoresBounded server env south west midLat midLng (depth + 1))
        let q2 := absorbQuadrant (fetchRetailStoresBounded server env south midLng midLat east (depth + 1))
        let q3 := absorbQuadrant (fetchRetailStoresBounded server env midLat west north midLng (depth + 1))
        let q4 := absorbQuadrant (fetchRetailStoresBounded server env midLat midLng north east (depth + 1))
        (.ok (q1.1 ++ q2.1 ++ q3.1 ++ q4.1), t ++ q1.2 ++ q2.2 ++ q3.2 ++ q4.2)
      else if 0 < depth then (.ok [], t)
      else (.error err, t)
termination_by 2 - depth
decreasing_by
  all_goals omega

/-- Depths of the bounded calls entered during a scan, in order. -/
def depthsEntered (t : Trace) : List Nat :=
  t.filterMap fun e => match e with
    | .enter d => some d
    | _ => none

/-- The wait durations (ms) of a trace, in order. -/
def waitsOf (t : Trace) : List ℚ :=
  t.filterMap fun e => match e with
    | .wait d => some d
    | _ => none

/-- Number of requests issued by bounded calls at a given depth. -/
def requestCountAt (dep : Nat) (t : Trace) : Nat :=
  (t.filterMap fun e => match e with
    | .request d _ _ => if d = dep then some () else none
    | _ => none).length

/-! ## The taluk boundary data (coordinates are [lng, lat] pairs) -/

def coordsNelamangala : List (ℚ × ℚ) :=
  [(77.42, 13.18), (77.45, 13.10), (77.48, 13.02), (77.42, 12.96), (77.35, 12.98), (77.25,
   13.05), (77.22, 13.15), (77.28, 13.25), (77.35, 13.22), (77.42, 13.18)]

def coordsDoddaballapur : List (ℚ × ℚ) :=
  [(77.42, 13.18), (77.38, 13.25), (77.35, 13.35), (77.40, 13.45), (77.45, 13.55), (77.55,
   13.52), (77.65, 13.48), (77.62, 13.35), (77.61, 13.21), (77.52, 13.20), (77.42, 13.18)]

def coordsDevanahalli : List (ℚ × ℚ) :=
  [(77.61, 13.21), (77.62, 13.35), (77.68, 13.42), (77.78, 13.40), (77.85, 13.30), (77.82,
   13.20), (77.78, 13.15), (77.74, 13.08), (77.68, 13.15), (77.61, 13.21)]

def coordsHoskote : List (ℚ × ℚ) :=
  [(77.74, 13.08), (77.78, 13.15), (77.88, 13.12), (77.92, 13.00), (77.88, 12.90), (77.80,
   12.92), (77.75, 12.95), (77.74, 13.08)]

def coordsBlrNorth : List (ℚ × ℚ) :=
  [(77.42, 13.18), (77.52, 13.20), (77.61, 13.21), (77.68, 13.15), (77.74, 13.08), (77.70,
   13.05), (77.65, 13.00), (77.61, 12.97), (77.55, 12.98), (77.50, 13.00), (77.48, 13.02),
   (77.45, 13.10), (77.42, 13.18)]

def coordsBlrEast : List (ℚ × ℚ) :=
  [(77.61, 12.97), (77.65, 13.00), (77.70, 13.05), (77.74, 13.08), (77.75, 12.95), (77.80,
   12.92), (77.75, 12.88), (77.66, 12.87), (77.65, 12.92), (77.61, 12.97)]

def coordsBlrSouth : List (ℚ × ℚ) :=
  [(77.61, 12.97), (77.65, 12.92), (77.66, 12.87), (77.60, 12.85), (77.53, 12.82), (77.48,
   12.88), (77.48, 12.95), (77.55, 12.98), (77.61, 12.97)]

def coordsAnekal : List (ℚ × ℚ) :=
  [(77.53, 12.82), (77.60, 12.85), (77.66, 12.87), (77.75, 12.88), (77.82, 12.80), (77.78,
   12.70), (77.70, 12.65), (77.60, 12.68), (77.52, 12.75), (77.53, 12.82)]

/-- One entry of `talukDataRaw`: the fields the village generator reads
 (name, district, boundary polygon).  Population, literacy, centre and
 crop/market lists only feed presentation-only attributes and are omitted. -/
structure TalukMeta where
  name : String
  district : String
  coords : List (ℚ × ℚ)
deriving DecidableEq, Repr

def talukDataRaw : List TalukMeta :=
  [⟨"Doddaballapur", "Bengaluru Rural", coordsDoddaballapur⟩,
   ⟨"Devanahalli", "Bengaluru Rural", coordsDevanahalli⟩,
   ⟨"Nelamangala", "Bengaluru Rural", coordsNelamangala⟩,
   ⟨"Hoskote", "Bengaluru Rural", coordsHoskote⟩,
   ⟨"Bengaluru North", "Bengaluru Urban", coordsBlrNorth⟩,
   ⟨"Bengaluru East", "Bengaluru Urban", coordsBlrEast⟩,
   ⟨"Bengaluru South", "Bengaluru Urban", coordsBlrSouth⟩,
   ⟨"Anekal", "Bengaluru Urban", coordsAnekal⟩]

def realVillageNames : List (String × List String) :=
  [("Devanahalli",
    ["Avati", "Bidalur", "Kundana", "Vijayapura", "Channarayapatna", "Kannamangala", "Koira", "Sathanur", "Yeliyur", "Venkatagirikote", "Sadahalli", "Devanahalli Town"]),
   ("Doddaballapur",
    ["Tubagere", "Sasalu", "Madhure", "Doddabelavangala", "Melekote", "Raghunathapura", "Konaghatta", "Heggadihalli", "Aroodi", "Kadur", "Doddaballapur Ind. Area"]),
   ("Hoskote",
    ["Anugondanahalli", "Jadigenahalli", "Nandagudi", "Sulibele", "Mugabal", "Kalkunte", "Doddagattiganabbe", "Vagata", "Muthasandra", "Hoskote Town", "Thavarekere"]),
   ("Nelamangala",
    ["Sompura", "T. Begur", "Kulumepalya", "Dabaspet", "Thyamagondlu", "Baraguru", "Manne", "Nidavanda", "Mahadevapura", "Nelamangala Town", "Arishinakunte"]),
   ("Anekal",
    ["Sarjapura", "Attibele", "Jigani", "Marsur", "Mugalur", "Dommasandra", "Neriga", "Chandapura", "Mayasandra", "Indlavadi", "Anekal Town", "Hebbagodi"]),
   ("Bengaluru North",
    ["Hesaraghatta", "Gopalapura", "Singanayakanahalli", "Bagalur", "Kadalagere", "Chikkabanavara", "Srigandhada Kaval", "Yelahanka New Town", "Jakkur", "Thanisandra"]),
   ("Bengaluru East",
    ["Varthur", "Gunjur", "Sorahunase", "Immadihalli", "Mullur", "Panathur", "Balagere", "Hoodi", "Kadugodi", "Bellandur"]),
   ("Bengaluru South",
    ["Kengeri", "Begur", "Hulimavu", "Gottigere", "Tataguni", "Agara", "Uttarahalli", "Konanakunte", "Anjanapura", "Vasanthapura"])]

/-- Curated village coordinates, stored as (lat, lng) like the source. -/
def realVillageLocations : List (String × ℚ × ℚ) :=
  [("Avati", 13.303, 77.726),
   ("Bidalur", 13.218, 77.693),
   ("Kundana", 13.208, 77.636),
   ("Vijayapura", 13.293, 77.801),
   ("Channarayapatna", 13.220, 77.750),
   ("Kannamangala", 13.180, 77.730),
   ("Koira", 13.220, 77.660),
   ("Sathanur", 13.140, 77.650),
   ("Yeliyur", 13.190, 77.720),
   ("Venkatagirikote", 13.240, 77.710),
   ("Sadahalli", 13.190, 77.680),
   ("Devanahalli Town", 13.248, 77.713),
   ("Tubagere", 13.350, 77.450),
   ("Sasalu", 13.260, 77.450),
   ("Madhure", 13.220, 77.440),
   ("Doddabelavangala", 13.380, 77.380),
   ("Melekote", 13.320, 77.510),
   ("Raghunathapura", 13.280, 77.520),
   ("Konaghatta", 13.310, 77.540),
   ("Heggadihalli", 13.380, 77.480),
   ("Aroodi", 13.400, 77.420),
   ("Kadur", 13.300, 77.400),
   ("Doddaballapur Ind. Area", 13.280, 77.530),
   ("Anugondanahalli", 13.010, 77.820),
   ("Jadigenahalli", 13.060, 77.850),
   ("Nandagudi", 13.150, 77.880),
   ("Sulibele", 13.120, 77.810),
   ("Mugabal", 13.040, 77.860),
   ("Kalkunte", 13.080, 77.750),
   ("Doddagattiganabbe", 13.060, 77.800),
   ("Vagata", 13.110, 77.860),
   ("Muthasandra", 13.020, 77.790),
   ("Hoskote Town", 13.070, 77.795),
   ("Thavarekere", 13.000, 77.820),
   ("Sompura", 13.240, 77.230),
   ("T. Begur", 13.150, 77.300),
   ("Kulumepalya", 13.120, 77.350),
   ("Dabaspet", 13.240, 77.240),
   ("Thyamagondlu", 13.200, 77.280),
   ("Baraguru", 13.180, 77.250),
   ("Manne", 13.220, 77.320),
   ("Nidavanda", 13.260, 77.220),
   ("Mahadevapura", 13.120, 77.380),
   ("Nelamangala Town", 13.095, 77.390),
   ("Arishinakunte", 13.130, 77.420),
   ("Sarjapura", 12.860, 77.780),
   ("Attibele", 12.780, 77.770),
   ("Jigani", 12.780, 77.640),
   ("Marsur", 12.800, 77.700),
   ("Mugalur", 12.880, 77.750),
   ("Dommasandra", 12.890, 77.750),
   ("Neriga", 12.920, 77.760),
   ("Chandapura", 12.800, 77.700),
   ("Mayasandra", 12.750, 77.720),
   ("Indlavadi", 12.740, 77.680),
   ("Anekal Town", 12.710, 77.690),
   ("Hebbagodi", 12.840, 77.670),
   ("Hesaraghatta", 13.140, 77.480),
   ("Gopalapura", 13.160, 77.460),
   ("Singanayakanahalli", 13.120, 77.560),
   ("Bagalur", 13.140, 77.640),
   ("Kadalagere", 13.170, 77.600),
   ("Chikkabanavara", 13.070, 77.510),
   ("Srigandhada Kaval", 12.990, 77.500),
   ("Yelahanka New Town", 13.100, 77.580),
   ("Jakkur", 13.070, 77.600),
   ("Thanisandra", 13.050, 77.630),
   ("Varthur", 12.940, 77.740),
   ("Gunjur", 12.920, 77.740),
   ("Sorahunase", 12.950, 77.750),
   ("Immadihalli", 12.960, 77.760),
   ("Mullur", 12.910, 77.730),
   ("Panathur", 12.930, 77.700),
   ("Balagere", 12.940, 77.720),
   ("Hoodi", 12.990, 77.710),
   ("Kadugodi", 12.995, 77.760),
   ("Bellandur", 12.930, 77.670),
   ("Kengeri", 12.910, 77.480),
   ("Begur", 12.880, 77.630),
   ("Hulimavu", 12.870, 77.600),
   ("Gottigere", 12.860, 77.580),
   ("Tataguni", 12.850, 77.520),
   ("Agara", 12.920, 77.640),
   ("Uttarahalli", 12.900, 77.540),
   ("Konanakunte", 12.890, 77.570),
   ("Anjanapura", 12.860, 77.560),
   ("Vasanthapura", 12.890, 77.540)]

def villagePrefixList : List String :=
  ["Doda", "Chikka", "Malla", "Golla", "Hosa", "Byra", "Kumba", "Sidda", "Rama", "Shiva", "Nara"]

def villageSuffixList : List String :=
  ["pura", "halli", "kere", "gudda", "palya", "sandra", "kote", "ur", "pete", "gere"]


/-! ## The synthetic village generator (`geoData`) -/

/-- Ring validity: at least 3 vertices.  The source additionally checks that
 each vertex is a pair of non-NaN numbers, which is vacuous for exact
 rational pairs. -/
def isValidRing (ring : List (ℚ × ℚ)) : Bool := decide (3 ≤ ring.length)

/-- One edge of the ray-casting loop.  When the edge is horizontal the
 source short-circuits the `&&` before the division; in the model the
 division is total (`x / 0 = 0`) and the conjunction is false either way. -/
def rayCastStep (p : ℚ × ℚ) (inside : Bool) (e : (ℚ × ℚ) × (ℚ × ℚ)) : Bool :=
  let xi := e.1.1
  let yi := e.1.2
  let xj := e.2.1
  let yj := e.2.2
  let intersect := (decide (yi > p.2) != decide (yj > p.2)) &&
    decide (p.1 < (xj - xi) * (p.2 - yi) / (yj - yi) + xi)
  if intersect then !inside else inside

/-- `isPointInPolygon` (ray casting, even-odd rule).  The source iterates
 `i` over all indices with `j` the wrapping predecessor index; the edge list
 `vs.zip (last :: dropLast vs)` visits the same `(vs[i], vs[j])` pairs in
 the same order. -/
def isPointInPolygon (p : ℚ × ℚ) (vs : List (ℚ × ℚ)) : Bool :=
  (vs.zip (vs.getLastD (0, 0) :: vs.dropLast)).foldl (rayCastStep p) false

/-- Platform math used by the polygon synthesizer: `Math.PI`, `Math.cos`,
 `Math.sin` (exact trigonometry is irrational, so these are explicit
 rational-valued environment parameters). -/
structure MathOracle where
  piQ : ℚ
  cosF : ℚ → ℚ
  sinF : ℚ → ℚ

/-- Generator state: the module-level `vId` and `villageGeocodeCounter`
 counters, plus the position in the `Math.random()` value stream. -/
structure GenState where
  vId : Nat
  counter : Nat
  idx : Nat
deriving DecidableEq, Repr

/-- One `Math.random()` call: the next value of the stream `σ`. -/
def draw (σ : Nat → ℚ) (st : GenState) : ℚ × GenState :=
  (σ st.idx, { st with idx := st.idx + 1 })

/-- The vertex loop of `generateOrganicPolygon`: for each `i`, one radius
 draw, then the jittered point at angle `i·2π/sides` with the 0.85 latitude
 flattening. -/
def organicPoints (M : MathOracle) (σ : Nat → ℚ) (centerLat centerLng baseRadius : ℚ)
    (sides : Nat) : List Nat → GenState → List (ℚ × ℚ) × GenState
  | [], st => ([], st)
  | i :: rest, st =>
    let a := draw σ st
    let r := baseRadius * (0.8 + a.1 * 0.4)
    let angle := ((i : ℚ) * 2 * M.piQ) / (sides : ℚ)
    let p := (centerLng + r * M.cosF angle, centerLat + r * M.sinF angle * 0.85)
    let q := organicPoints M σ centerLat centerLng baseRadius sides rest a.2
    (p :: q.1, q.2)

/-- `generateOrganicPolygon`: 6–9 sides (`6 + Math.floor(Math.random()*4)`;
 `Int.toNat` matches `Math.floor` for draws in [0, 1)), the jittered vertex
 ring closed by repeating the first vertex (`sides ≥ 6`, so the `headD`
 default is never used). -/
def generateOrganicPolygon (M : MathOracle) (σ : Nat → ℚ) (centerLat centerLng baseRadius : ℚ)
    (st : GenState) : List (ℚ × ℚ) × GenState :=
  let a := draw σ st
  let sides := 6 + (⌊a.1 * 4⌋).toNat
  let ps := organicPoints M σ centerLat centerLng baseRadius sides (List.range sides) a.2
  (ps.1 ++ [ps.1.headD (0, 0)], ps.2)

/-- The fields of a produced village feature that the claims are about.
 `centerLat`/`centerLng` record the placement centre the polygon was grown
 around.  Distance/nearest-station enrichment and the demographic fields are
 presentation-only and omitted (their six random draws are still consumed,
 see `createVillageFeature`). -/
structure Village where
  vid : String
  geocode : String
  name : String
  taluk : String
  district : String
  centerLat : ℚ
  centerLng : ℚ
  poly : List (ℚ × ℚ)
deriving DecidableEq, Repr

/-- `createVillageFeature`: grows the organic polygon, consumes `vId` and
 the `KAV` geocode counter *before* the ring-validity check (exactly as the
 source's `vId++` / `villageGeocodeCounter++`), draws the population, and
 returns `none` — with the counters already incremented — when the ring is
 invalid.  The six draws for `areaSqKm`, `literacyRate`, `waterSource`,
 `roadCondition`, `busFrequency` and `schoolCount` feed omitted
 presentation-only fields and are consumed inside the valid branch. -/
def createVillageFeature (M : MathOracle) (σ : Nat → ℚ) (name : String) (lat lng : ℚ)
    (talukName districtName : String) (st : GenState) : Option Village × GenState :=
  let g := generateOrganicPolygon M σ lat lng 0.005 st
  let vIDString := "village-" ++ toString g.2.vId
  let geocode := "KAV" ++ toString g.2.counter
  let st1 : GenState := ⟨g.2.vId + 1, g.2.counter + 1, g.2.idx⟩
  let p := draw σ st1
  if isValidRing g.1 then
    let st2 : GenState := { p.2 with idx := p.2.idx + 6 }
    (some ⟨vIDString, geocode, name, talukName, districtName, lat, lng, g.1⟩, st2)
  else (none, p.2)

def listMinQ (l : List ℚ) : ℚ := l.foldl min (l.headD 0)

def listMaxQ (l : List ℚ) : ℚ := l.foldl max (l.headD 0)

/-- `REAL_VILLAGE_NAMES[taluk.name] || []`. -/
def lookupVillageNames (t : String) : List String :=
  ((realVillageNames.find? (fun p => p.1 == t)).map (fun p => p.2)).getD []

/-- `REAL_VILLAGE_LOCATIONS[name]` as an optional (lat, lng) pair. -/
def lookupVillageLoc (n : String) : Option (ℚ × ℚ) :=
  (realVillageLocations.find? (fun p => p.1 == n)).map (fun p => p.2)

/-- Step 1 of the per-taluk loop: place every curated gazetteer village that
 has a known location, trusting the coordinates (no point-in-polygon
 check). -/
def placeCuratedVillages (M : MathOracle) (σ : Nat → ℚ) (t : TalukMeta) :
    List String → GenState → List Village × GenState
  | [], st => ([], st)
  | n :: rest, st =>
    match lookupVillageLoc n with
    | some loc =>
      let c := createVillageFeature M σ n loc.1 loc.2 t.name t.district st
      match c.1 with
      | some v =>
        let q := placeCuratedVillages M σ t rest c.2
        (v :: q.1, q.2)
      | none => placeCuratedVillages M σ t rest c.2
    | none => placeCuratedVillages M σ t rest st

/-- Step 2: rejection sampling inside the taluk's bounding box until the
 target count (35) or the attempts cap (the fuel, 400) is reached.  A point
 is accepted only when the ray-cast containment test passes; the `isNaN`
 skip of the source cannot fire over ℚ.  Out-of-range name indices fall to
 `""` (unreachable for draws in [0, 1)). -/
def fillRandomVillages (M : MathOracle) (σ : Nat → ℚ) (t : TalukMeta)
    (minLat maxLat minLng maxLng : ℚ) : Nat → Nat → GenState → List Village × GenState
  | _, 0, st => ([], st)
  | count, fuel + 1, st =>
    if count < 35 then
      let a := draw σ st
      let b := draw σ a.2
      let lat := minLat + a.1 * (maxLat - minLat)
      let lng := minLng + b.1 * (maxLng - minLng)
      if isPointInPolygon (lng, lat) t.coords then
        let c := draw σ b.2
        let d := draw σ c.2
        let name := villagePrefixList.getD (⌊c.1 * (villagePrefixList.length : ℚ)⌋).toNat "" ++
                    villageSuffixList.getD (⌊d.1 * (villageSuffixList.length : ℚ)⌋).toNat ""
        let f := createVillageFeature M σ name lat lng t.name t.district d.2
        match f.1 with
        | some v =>
          let q := fillRandomVillages M σ t minLat maxLat minLng maxLng (count + 1) fuel f.2
          (v :: q.1, q.2)
        | none => fillRandomVillages M σ t minLat maxLat minLng maxLng count fuel f.2
      else fillRandomVillages M σ t minLat maxLat minLng maxLng count fuel b.2
    else ([], st)

/-- One taluk of the `talukDataRaw.forEach` loop: bounding box, curated
 placements, then random fill starting from the curated success count with
 the 400-attempt cap. -/
def genTalukVillages (M : MathOracle) (σ : Nat → ℚ) (t : TalukMeta) (st : GenState) :
    List Village × GenState :=
  let lats := t.coords.map (fun c => c.2)
  let lngs := t.coords.map (fun c => c.1)
  let cur := placeCuratedVillages M σ t (lookupVillageNames t.name) st
  let rnd := fillRandomVillages M σ t (listMinQ lats) (listMaxQ lats) (listMinQ lngs)
    (listMaxQ lngs) cur.1.length 400 cur.2
  (cur.1 ++ rnd.1, rnd.2)

def genAllVillages (M : MathOracle) (σ : Nat → ℚ) :
    List TalukMeta → GenState → List Village × GenState
  | [], st => ([], st)
  | t :: rest, st =>
    let g := genTalukVillages M σ t st
    let q := genAllVillages M σ rest g.2
    (g.1 ++ q.1, q.2)

/-- The whole generated villages collection: all taluks processed in order
 against the single module-level state, `vId` starting at 0 and the geocode
 counter at 1001. -/
def generatedVillages (M : MathOracle) (σ : Nat → ℚ) : List Village :=
  (genAllVillages M σ talukDataRaw ⟨0, 1001, 0⟩).1

/-- The polygon of the taluk owning a village, looked up by taluk name. -/
def talukCoords (name : String) : List (ℚ × ℚ) :=
  ((talukDataRaw.find? (fun t => t.name == name)).map (fun t => t.coords)).getD []

/-- The villages of a list carry consecutive `KAV` geocodes starting at `c`. -/
def GeoSeq (c : Nat) (l : List Village) : Prop :=
  l.map (fun v => v.geocode) = (List.range l.length).map (fun i => "KAV" ++ toString (c + i))


/-! ## CSV export (`convertToCSV`) and import (`handleFileUpload`) of `App`

Property values are strings or numbers (`PVal.undef` models JavaScript's
`undefined` for missing row cells); geometry is a polygon.  JavaScript
string primitives (`split`, `trim`, `replace`, `Number`) are modelled on
character lists.  `jsNumToString` renders the exact decimal expansion when
the denominator divides a power of ten (the repository's data) and falls
back to a fraction rendering otherwise; exponent and hex notations are not
modelled. -/

inductive PVal where
  | str (s : String)
  | num (q : ℚ)
  | undef
deriving DecidableEq, Repr

abbrev Props := List (String × PVal)

inductive CGeom where
  | polygon (rings : List (List (ℚ × ℚ)))
deriving DecidableEq, Repr

structure CFeature where
  fid : String
  properties : Props
  geometry : CGeom
deriving DecidableEq, Repr

/-- Smallest `k ≤ 30` with `den ∣ 10^k`, if any. -/
def pow10den (den : Nat) : Option Nat :=
  (List.range 31).find? (fun k => 10 ^ k % den = 0)

/-- JavaScript number-to-string: integers without a decimal point, finite
 decimals with trailing zeros dropped. -/
def jsNumToString (q : ℚ) : String :=
  let sign := if q.num < 0 then "-" else ""
  match pow10den q.den with
  | some 0 => sign ++ toString q.num.natAbs
  | some (k + 1) =>
      let scaled := q.num.natAbs * ((10 ^ (k + 1)) / q.den)
      let ip := scaled / 10 ^ (k + 1)
      let fr := scaled % 10 ^ (k + 1)
      let ds := toString fr
      let padded := String.mk (List.replicate (k + 1 - ds.length) '0') ++ ds
      let trimmed := String.mk ((padded.data.reverse.dropWhile (fun c => c == '0')).reverse)
      sign ++ toString ip ++ "." ++ trimmed
  | none => sign ++ toString q.num.natAbs ++ "/" ++ toString q.den

def jsonJoin (l : List String) : String := String.intercalate "," l

def jsonOfPoint (p : ℚ × ℚ) : String :=
  "[" ++ jsNumToString p.1 ++ "," ++ jsNumToString p.2 ++ "]"

def jsonOfRing (r : List (ℚ × ℚ)) : String := "[" ++ jsonJoin (r.map jsonOfPoint) ++ "]"

/-- `JSON.stringify` of the geometry object. -/
def jsonOfGeom : CGeom → String
  | .polygon rings =>
      "\x7b\"type\":\"Polygon\",\"coordinates\":[" ++ jsonJoin (rings.map jsonOfRing) ++ "]\x7d"

/-- `.replace(/"/g, '""')`. -/
def csvEscapeQuotes (s : String) : String :=
  String.mk (s.data.foldr (fun c acc => (if c == '"' then ['"', '"'] else [c]) ++ acc) [])

/-- The union of all property keys in first-occurrence order (a JS `Set`
 preserves insertion order). -/
def collectKeys (features : List CFeature) : List String :=
  features.foldl (fun acc f => f.properties.foldl (fun acc2 kv =>
    if acc2.contains kv.1 then acc2 else acc2 ++ [kv.1]) acc) []

def propLookup (p : Props) (k : String) : Option PVal :=
  (p.find? (fun kv => kv.1 == k)).map (fun kv => kv.2)

/-- One CSV cell: the geometry column is the quote-escaped JSON in quotes;
 strings are quote-escaped and quoted only when they contain a comma;
 numbers are rendered bare; missing keys produce the empty field. -/
def csvCell (f : CFeature) (header : String) : String :=
  if header == "geometry" then
    "\"" ++ csvEscapeQuotes (jsonOfGeom f.geometry) ++ "\""
  else
    match propLookup f.properties header with
    | none => ""
    | some (.str s) =>
        let s2 := csvEscapeQuotes s
        if s2.data.contains ',' then "\"" ++ s2 ++ "\"" else s2
    | some (.num q) => jsNumToString q
    | some .undef => ""

/-- `convertToCSV`: header row of all keys plus a trailing geometry column,
 then one row per feature, joined with newlines. -/
def convertToCSV (features : List CFeature) : String :=
  if features.isEmpty then "" else
  let headers := collectKeys features ++ ["geometry"]
  let headerRow := String.intercalate "," headers
  let rows := features.map (fun f => String.intercalate "," (headers.map (csvCell f)))
  String.intercalate "\n" (headerRow :: rows)

/-- JavaScript `String.prototype.split` with a single-character separator. -/
def splitChar (sep : Char) : List Char → List (List Char)
  | [] => [[]]
  | c :: rest =>
    let r := splitChar sep rest
    if c == sep then [] :: r
    else (c :: r.headD []) :: r.tail

def charsTrim (l : List Char) : List Char :=
  ((l.dropWhile Char.isWhitespace).reverse.dropWhile Char.isWhitespace).reverse

/-- JavaScript `Number(s)` on a trimmed string: `some 0` for the empty
 string, the decimal value when the whole string is a signed decimal
 literal, `none` (NaN) otherwise. -/
def jsNumberStrict (s : String) : Option ℚ :=
  let cs := s.data
  let neg := cs.headD ' ' == '-'
  let cs2 := if neg || (cs.headD ' ' == '+') then cs.tail else cs
  let ip := cs2.takeWhile Char.isDigit
  let rest := cs2.dropWhile Char.isDigit
  let ok :=
    if rest.isEmpty then !ip.isEmpty
    else if rest.headD ' ' == '.' then
      !(ip.isEmpty && rest.tail.isEmpty) && rest.tail.all Char.isDigit
    else false
  if cs.isEmpty then some 0
  else if ok then
    let fp := if rest.headD ' ' == '.' then rest.tail else []
    let mag : ℚ := (digitsToNat ip : ℚ) + (digitsToNat fp : ℚ) / 10 ^ fp.length
    some (if neg then -mag else mag)
  else none

/-- One imported cell: `row[index]?.trim()`, numeric-looking non-empty
 cells parsed as numbers, missing cells `undefined`. -/
def parseCell (cell : Option (List Char)) : PVal :=
  match cell with
  | none => .undef
  | some cs =>
    let v := String.mk (charsTrim cs)
    match jsNumberStrict v with
    | some q => if v == "" then .str v else .num q
    | none => .str v

def parseRecord (headers : List String) (row : List (List Char)) : Props :=
  (List.range headers.length).map (fun i => (headers.getD i "", parseCell (row.get? i)))

/-- The CSV branch of `handleFileUpload`: split lines on `\n`, headers from
 the first line (trimmed), then one record per non-blank line, each split
 naively on `,` with no quote awareness. -/
def parseCsvRecords (content : String) : List Props :=
  let lines := splitChar '\n' content.data
  let headers := (splitChar ',' (lines.headD [])).map (fun h => String.mk (charsTrim h))
  lines.tail.filterMap (fun line =>
    if (charsTrim line).isEmpty then none
    else some (parseRecord headers (splitChar ',' line)))

/-- JavaScript object spread `{...base, ...overrides}`: existing keys
 updated in place order, new keys appended in override order. -/
def objAssign (base overrides : Props) : Props :=
  let updated := base.map (fun kv =>
    match overrides.find? (fun kv2 => kv2.1 == kv.1) with
    | some kv2 => (kv.1, kv2.2)
    | none => kv)
  let newKeys := overrides.filter (fun kv2 => !(base.any (fun kv => kv.1 == kv2.1)))
  updated ++ newKeys

/-- The merge of `handleFileUpload`: each feature takes the first imported
 record whose `geocode` is strictly equal to its own and spreads it over
 its attribute bag. -/
def updateCollection (dataToImport : List Props) (features : List CFeature) : List CFeature :=
  features.map (fun f =>
    match dataToImport.find? (fun d =>
      ((propLookup d "geocode").getD .undef) ==
        ((propLookup f.properties "geocode").getD .undef)) with
    | some m => { f with properties := objAssign f.properties m }
    | none => f)

/-- The concrete round-trip input of C3: one feature with two comma-free
 scalar attributes and a unit-triangle polygon. -/
def rtFeature : CFeature :=
  ⟨"f1", [("geocode", .str "KAX1"), ("name", .str "Alpha")],
    .polygon [[(0, 0), (1, 0), (0, 1), (0, 0)]]⟩

/-- Export `[rtFeature]` to CSV, re-import it and merge it back on. -/
def rtResult : List CFeature :=
  updateCollection (parseCsvRecords (convertToCSV [rtFeature])) [rtFeature]

/-! ## Mock endpoints and environments used in the concrete scenarios -/

/-- A reference environment: zero jitter, the zero function for `Math.sin`
 and Chromium's message for an aborted fetch. -/
def env0 : ScanEnv := ⟨fun _ => 0, fun _ => 0, "The user aborted a request."⟩

/-- A reference math oracle for the generator (all platform functions 0). -/
def oracle0 : MathOracle := ⟨0, fun _ => 0, fun _ => 0⟩

/-- A reference `Math.random()` stream (constantly 0, a value in [0, 1)). -/
def stream0 : Nat → ℚ := fun _ => 0

/-- An endpoint that always answers HTTP 504 (perpetual gateway timeout). -/
def server504 : Server := fun _ _ => .httpError 504

/-- An endpoint that always answers HTTP 429 (perpetual rate limiting). -/
def server429 : Server := fun _ _ => .httpError 429

/-- An endpoint whose every request exceeds the 120 s fetch timeout. -/
def serverAbort : Server := fun _ _ => .abortError

/-- The bounding box of the concrete scenario. -/
def c6Box : BBox := ⟨12.90, 77.55, 13.00, 77.65⟩

/-- Three point elements (nodes with coordinates), as returned by the mocked
 endpoint for each quadrant of the concrete scenario. -/
def c6Elements : List OsmElement :=
  [{ id := 1, lat := some 13, lon := some 77 },
   { id := 2, lat := some 13, lon := some 77 },
   { id := 3, lat := some 13, lon := some 77 }]

/-- The mocked endpoint of the concrete scenario: HTTP 504 for the full box,
 HTTP 200 with three point features for every other box. -/
def c6Server : Server := fun b _ =>
  if b = c6Box then .httpError 504 else .ok c6Elements

/-- The store features produced from one quadrant answer of the scenario. -/
def c6Feats : List StoreFeature :=
  (c6Elements.filter elementHasCoords).map (transformToGeoFeature env0)

/-! # Theorems -/

/-! ## Helper lemmas about the scanner's error classification -/

theorem inc504_429 : strIncludes (osmErr 504).message "OSM_ERROR_429" = false := by decide

theorem elig504 : splitEligible (osmErr 504) = true := by decide

theorem inc429_429 : strIncludes (osmErr 429).message "OSM_ERROR_429" = true := by decide

theorem incAbort_429 : strIncludes "The user aborted a request." "OSM_ERROR_429" = false := by
  decide

theorem eligAbort : splitEligible ⟨"AbortError", "The user aborted a request."⟩ = false := by
  decide

/-- Under the perpetual-504 endpoint every query fails with `OSM_ERROR_504`
 after three attempts (one initial request and two 2-second retries). -/
theorem exec504 (env : ScanEnv) (depth : Nat) (b : BBox) :
    executeOverpassQuery server504 env depth b 1 =
      (.error (osmErr 504),
        [.request depth b 1, .wait 2000, .request depth b 2, .wait 2000, .request depth b 3]) := by
  simp [executeOverpassQuery, server504]

/-- The concrete scenario's endpoint fails the full box with `OSM_ERROR_504`. -/
theorem execC6Full (depth : Nat) :
    executeOverpassQuery c6Server env0 depth ⟨12.90, 77.55, 13.00, 77.65⟩ 1 =
      (.error (osmErr 504),
        [.request depth c6Box 1, .wait 2000, .request depth c6Box 2, .wait 2000,
          .request depth c6Box 3]) := by
  simp [executeOverpassQuery, c6Server, c6Box]

/-- The concrete scenario's endpoint answers any other box with the three
 point features on the first attempt. -/
theorem execC6Other (depth : Nat) (b : BBox) (hb : b ≠ c6Box) :
    executeOverpassQuery c6Server env0 depth b 1 = (.ok c6Feats, [.request depth b 1]) := by
  simp [executeOverpassQuery, c6Server, hb, c6Feats]

theorem c6FeatsLength : c6Feats.length = 3 := by
  norm_num [c6Feats, c6Elements, elementHasCoords, numTruthy]

/-! ## Claim theorems -/

/-- **C5.** `fetchRetailStoresBounded` at depth 0 terminates against an
 endpoint that perpetually answers HTTP 504 (it is a total function of the
 model, and here it evaluates to the empty result): recursion enters depths
 0, 1 and 2 only, exactly 4² = 16 leaf (depth-2) sub-scans are entered, and
 each leaf issues its bounded retry sequence of 3 requests (48 depth-2
 requests in total). -/
theorem claim5_bounded_termination (env : ScanEnv) (s w n e : ℚ) :
    (fetchRetailStoresBounded server504 env s w n e 0).1 = .ok [] ∧
    ((depthsEntered (fetchRetailStoresBounded server504 env s w n e 0).2).count 2 = 16 ∧
      ∀ d ∈ depthsEntered (fetchRetailStoresBounded server504 env s w n e 0).2, d ≤ 2) ∧
    requestCountAt 2 (fetchRetailStoresBounded server504 env s w n e 0).2 = 48 := by
  refine ⟨?_, ⟨?_, ?_⟩, ?_⟩ <;>
    simp [fetchRetailStoresBounded, exec504, absorbQuadrant, inc504_429, elig504,
      depthsEntered, requestCountAt, List.filterMap_cons, List.count_cons]

/-- Under an endpoint that answers a box with HTTP 429 on every attempt, the
 query executor issues 6 requests with the five exponential backoff waits in
 between and fails with `OSM_ERROR_429`. -/
theorem exec429spec (server : Server) (env : ScanEnv) (depth : Nat) (b : BBox)
    (hs : ∀ a, server b a = .httpError 429) :
    executeOverpassQuery server env depth b 1 =
      (.error (osmErr 429),
        [.request depth b 1, .wait (3000 + env.jitter 1),
         .request depth b 2, .wait (6000 + env.jitter 2),
         .request depth b 3, .wait (12000 + env.jitter 3),
         .request depth b 4, .wait (24000 + env.jitter 4),
         .request depth b 5, .wait (48000 + env.jitter 5),
         .request depth b 6]) := by
  simp [executeOverpassQuery, hs]
  norm_num

/-- **C4.** When a box perpetually answers HTTP 429 and the jitter values
 lie in [0, 1000): the executor performs exactly five backoff waits, the
 k-th retry being delayed by `3000·2^(k-1) + jitter` (so each wait lies in
 `[3000·2^(k-1), 3000·2^(k-1) + 1000)`), the failure is `OSM_ERROR_429`, and
 the bounded scan classifies it as fatal at once — it rethrows the
 rate-limit error and never quadrant-splits (no recursion is entered). -/
theorem claim4_rate_limit_backoff (server : Server) (env : ScanEnv) (s w n e : ℚ) (depth : Nat)
    (hs : ∀ a, server ⟨s, w, n, e⟩ a = .httpError 429)
    (hj : ∀ k, 0 ≤ env.jitter k ∧ env.jitter k < 1000) :
    (executeOverpassQuery server env depth ⟨s, w, n, e⟩ 1).1 = .error (osmErr 429) ∧
    waitsOf (executeOverpassQuery server env depth ⟨s, w, n, e⟩ 1).2 =
      [3000 + env.jitter 1, 6000 + env.jitter 2, 12000 + env.jitter 3,
       24000 + env.jitter 4, 48000 + env.jitter 5] ∧
    (∀ k, k < 5 →
      3000 * 2 ^ k ≤ (waitsOf (executeOverpassQuery server env depth ⟨s, w, n, e⟩ 1).2).getD k 0 ∧
      (waitsOf (executeOverpassQuery server env depth ⟨s, w, n, e⟩ 1).2).getD k 0 <
        3000 * 2 ^ k + 1000) ∧
    (fetchRetailStoresBounded server env s w n e depth).1 = .error busyError ∧
    depthsEntered (fetchRetailStoresBounded server env s w n e depth).2 = [depth] := by
  have E := exec429spec server env depth ⟨s, w, n, e⟩ hs
  refine ⟨?_, ?_, ?_, ?_, ?_⟩
  · rw [E]
  · rw [E]; simp [waitsOf, List.filterMap_cons]
  · intro k hk
    rw [E]
    interval_cases k <;>
      simp [waitsOf, List.filterMap_cons] <;>
      [have := hj 1; have := hj 2; have := hj 3; have := hj 4; have := hj 5] <;>
      constructor <;> norm_num <;> linarith [this.1, this.2]
  · simp [fetchRetailStoresBounded, E, inc429_429]
  · simp [fetchRetailStoresBounded, E, inc429_429, depthsEntered, List.filterMap_cons]

/-- Witness for C4: the perpetual-429 endpoint on the unit box with zero
 jitter. -/
theorem claim4_witness :
    (executeOverpassQuery server429 env0 0 ⟨0, 0, 1, 1⟩ 1).1 = .error (osmErr 429) ∧
    waitsOf (executeOverpassQuery server429 env0 0 ⟨0, 0, 1, 1⟩ 1).2 =
      [3000 + env0.jitter 1, 6000 + env0.jitter 2, 12000 + env0.jitter 3,
       24000 + env0.jitter 4, 48000 + env0.jitter 5] ∧
    (∀ k, k < 5 →
      3000 * 2 ^ k ≤ (waitsOf (executeOverpassQuery server429 env0 0 ⟨0, 0, 1, 1⟩ 1).2).getD k 0 ∧
      (waitsOf (executeOverpassQuery server429 env0 0 ⟨0, 0, 1, 1⟩ 1).2).getD k 0 <
        3000 * 2 ^ k + 1000) ∧
    (fetchRetailStoresBounded server429 env0 0 0 1 1 0).1 = .error busyError ∧
    depthsEntered (fetchRetailStoresBounded server429 env0 0 0 1 1 0).2 = [0] :=
  claim4_rate_limit_backoff server429 env0 0 0 1 1 0 (fun _ => rfl)
    (fun _ => by norm_num [env0])

/-- **C6.** Scanning the box (south 12.90, west 77.55, north 13.00,
 east 77.65) against the mocked endpoint that answers HTTP 504 for the full
 box and HTTP 200 with 3 point features for each of its four quadrants
 yields exactly 12 features, and the recursion enters depth 1 and no deeper
 depth. -/
theorem claim6_concrete_scenario :
    (fetchRetailStoresBounded c6Server env0 12.90 77.55 13.00 77.65 0).1 =
      .ok (c6Feats ++ c6Feats ++ c6Feats ++ c6Feats) ∧
    (c6Feats ++ c6Feats ++ c6Feats ++ c6Feats).length = 12 ∧
    depthsEntered (fetchRetailStoresBounded c6Server env0 12.90 77.55 13.00 77.65 0).2 =
      [0, 1, 1, 1, 1] := by
  have e1 := execC6Full 0
  have h1 : (⟨12.90, 77.55, (12.90 + 13.00) / 2, (77.55 + 77.65) / 2⟩ : BBox) ≠ c6Box := by
    simp only [c6Box, ne_eq, BBox.mk.injEq]; norm_num
  have h2 : (⟨12.90, (77.55 + 77.65) / 2, (12.90 + 13.00) / 2, 77.65⟩ : BBox) ≠ c6Box := by
    simp only [c6Box, ne_eq, BBox.mk.injEq]; norm_num
  have h3 : (⟨(12.90 + 13.00) / 2, 77.55, 13.00, (77.55 + 77.65) / 2⟩ : BBox) ≠ c6Box := by
    simp only [c6Box, ne_eq, BBox.mk.injEq]; norm_num
  have h4 : (⟨(12.90 + 13.00) / 2, (77.55 + 77.65) / 2, 13.00, 77.65⟩ : BBox) ≠ c6Box := by
    simp only [c6Box, ne_eq, BBox.mk.injEq]; norm_num
  have f1 := execC6Other 1 _ h1
  have f2 := execC6Other 1 _ h2
  have f3 := execC6Other 1 _ h3
  have f4 := execC6Other 1 _ h4
  refine ⟨?_, ?_, ?_⟩
  · simp [fetchRetailStoresBounded, e1, f1, f2, f3, f4, absorbQuadrant, inc504_429, elig504]
  · simp [c6FeatsLength]
  · simp [fetchRetailStoresBounded, e1, f1, f2, f3, f4, absorbQuadrant, inc504_429, elig504,
      depthsEntered, List.filterMap_cons]

theorem digitsToNat_nil : digitsToNat [] = 0 := rfl

theorem jsParseFloat_4 : jsParseFloat "4" = some 4 := by
  have h1 : "4".data.dropWhile Char.isWhitespace = ['4'] := by decide
  have h2 : (['4'] : List Char).takeWhile Char.isDigit = ['4'] := by decide
  have h3 : (['4'] : List Char).dropWhile Char.isDigit = ([] : List Char) := by decide
  have h4 : digitsToNat ['4'] = 4 := by decide
  have n1 : ¬('4' : Char) = '-' := by decide
  have n2 : ¬('4' : Char) = '+' := by decide
  simp only [jsParseFloat, h1]
  simp [n1, n2, h2, h3, h4, digitsToNat_nil]

theorem jsParseFloat_abc : jsParseFloat "abc" = none := by decide

/-- The synthetic rating always lies in [3.5, 5.0], for any value of the
 platform's `Math.sin`. -/
theorem stableRating_bounds (sinF : ℚ → ℚ) (idNum : Nat) :
    7 / 2 ≤ stableRatingFromId sinF idNum ∧ stableRatingFromId sinF idNum ≤ 5 := by
  simp only [stableRatingFromId, jsRound]
  have h0 := Int.fract_nonneg (sinF (idNum : ℚ) * 10000)
  have h1 := Int.fract_lt_one (sinF (idNum : ℚ) * 10000)
  rw [Int.fract] at h0 h1
  set s := sinF (idNum : ℚ) * 10000 with hs
  set X := (35 / 10 + (s - (⌊s⌋ : ℚ)) * (15 / 10)) * 10 + 1 / 2 with hX
  have lo : (35 : ℤ) ≤ ⌊X⌋ := Int.le_floor.mpr (by rw [hX]; push_cast; linarith)
  have hi : ⌊X⌋ < 51 := Int.floor_lt.mpr (by rw [hX]; push_cast; linarith)
  have lo2 : (35 : ℚ) ≤ (⌊X⌋ : ℚ) := by exact_mod_cast lo
  have hi2 : ((⌊X⌋ : ℚ)) ≤ 50 := by exact_mod_cast Int.lt_add_one_iff.mp hi
  constructor <;> linarith

/-- **C9.** When the tags provide no rating, the synthesized rating is a
 deterministic function of the element's stable identifier — two elements
 with the same id receive the same rating — and it lies in [3.5, 5.0]. -/
theorem claim9_deterministic_rating (env : ScanEnv) (e1 e2 : OsmElement)
    (h1 : extractTagRating e1.tags = none) (h2 : extractTagRating e2.tags = none)
    (hid : e1.id = e2.id) :
    (transformToGeoFeature env e1).rating = (transformToGeoFeature env e2).rating ∧
    7 / 2 ≤ (transformToGeoFeature env e1).rating ∧
    (transformToGeoFeature env e1).rating ≤ 5 := by
  have r1 : (transformToGeoFeature env e1).rating =
      stableRatingFromId env.sinF (jsParseIntDigits (toString e1.id)) := by
    simp [transformToGeoFeature, h1]
  have r2 : (transformToGeoFeature env e2).rating =
      stableRatingFromId env.sinF (jsParseIntDigits (toString e2.id)) := by
    simp [transformToGeoFeature, h2]
  rw [r1, r2, hid]
  exact ⟨rfl, stableRating_bounds _ _⟩

/-- Witness for C9: two tag-less elements with the same id (one node, one
 way) receive the same rating, inside [3.5, 5.0]. -/
theorem claim9_witness :
    (transformToGeoFeature env0 { id := 42 }).rating =
      (transformToGeoFeature env0 { etype := "way", id := 42 }).rating ∧
    7 / 2 ≤ (transformToGeoFeature env0 { id := 42 }).rating ∧
    (transformToGeoFeature env0 { id := 42 }).rating ≤ 5 :=
  claim9_deterministic_rating env0 { id := 42 } { etype := "way", id := 42 } rfl rfl rfl

/-- **C10 (amended).** When the first truthy tag among `stars`, `rating`,
 `addr:rate` parses to a number `v`, the produced rating is `v/2` if `v > 5`
 and `v` otherwise, independently of the platform environment (so the
 synthetic fallback plays no part).  (The original claim quantified over any
 of the three keys providing a parseable value; the chain stops at the first
 truthy key, see the counterexample.) -/
theorem claim10_tag_rating (env : ScanEnv) (el : OsmElement) (v : ℚ)
    (hv : extractTagRating el.tags = some v) :
    (transformToGeoFeature env el).rating = if 5 < v then v / 2 else v := by
  simp [transformToGeoFeature, hv]

/-- Witness for C10: an element with `stars = "4"` gets rating 4. -/
theorem claim10_witness :
    (transformToGeoFeature env0 { id := 3, tags := { stars := some "4" } }).rating =
      if 5 < (4 : ℚ) then 4 / 2 else 4 :=
  claim10_tag_rating env0 { id := 3, tags := { stars := some "4" } } 4
    (by simp [extractTagRating, jsTruthy, jsParseFloat_4,
          show "4".isEmpty = false from by decide])

/-- Counterexample to C10 as stated: an element whose `stars` tag is truthy
 but unparseable (`"abc"`) and whose `rating` tag parses to 4.  The claim
 predicts rating 4; the code never consults the `rating` key (the truthiness
 chain stopped at `stars`) and falls back to the synthetic rating, which is
 3.5 in the reference environment. -/
theorem stableRating_zero_sin (n : Nat) : stableRatingFromId (fun _ => 0) n = 7 / 2 := by
  simp only [stableRatingFromId, jsRound]
  norm_num

theorem claim10_counterexample :
    jsParseFloat ((OsmTags.rating { stars := some "abc", rating := some "4" }).getD "") =
      some 4 ∧
    (transformToGeoFeature env0
        { id := 3, tags := { stars := some "abc", rating := some "4" } }).rating = 7 / 2 ∧
    (7 : ℚ) / 2 ≠ 4 := by
  refine ⟨jsParseFloat_4, ?_, by norm_num⟩
  have hx : extractTagRating { stars := some "abc", rating := some "4" } = none := by
    simp [extractTagRating, jsTruthy, jsParseFloat_abc,
      show "abc".isEmpty = false from by decide]
  rw [show (transformToGeoFeature env0
      { id := 3, tags := { stars := some "abc", rating := some "4" } }).rating =
      stableRatingFromId env0.sinF (jsParseIntDigits (toString (3 : Nat))) from by
    simp [transformToGeoFeature, hx]]
  rw [show env0.sinF = (fun _ => 0) from rfl]
  exact stableRating_zero_sin _

/-- **C7 (code bug).** The stores geocode is `OSM-` followed by only the
 first six characters of the element id, so two distinct elements whose ids
 share a 6-character prefix collide: the scanned collection violates the
 within-collection geocode uniqueness invariant even though the feature ids
 (`osm-<id>`) remain distinct. -/
theorem claim7_geocode_collision :
    (transformToGeoFeature env0 { id := 1234567 }).geocode =
      (transformToGeoFeature env0 { id := 1234568 }).geocode ∧
    (transformToGeoFeature env0 { id := 1234567 }).geocode = "OSM-123456" ∧
    (1234567 : Nat) ≠ 1234568 ∧
    (transformToGeoFeature env0 { id := 1234567 }).fid ≠
      (transformToGeoFeature env0 { id := 1234568 }).fid := by
  refine ⟨by decide, by decide, by decide, by decide⟩

/-- Under the perpetually-timing-out endpoint the query executor retries the
 abort twice and then rethrows the browser's `AbortError`. -/
theorem execAbort (env : ScanEnv) (depth : Nat) (b : BBox) :
    executeOverpassQuery serverAbort env depth b 1 =
      (.error ⟨"AbortError", env.abortMsg⟩,
        [.request depth b 1, .request depth b 2, .request depth b 3]) := by
  simp [executeOverpassQuery, serverAbort]

/-- One-step unfolding of the bounded scan in the split-eligible case. -/
theorem fetch_split (server : Server) (env : ScanEnv) (s w n e : ℚ) (depth : Nat)
    (err : ErrObj)
    (hres : (executeOverpassQuery server env depth ⟨s, w, n, e⟩ 1).1 = .error err)
    (h429 : strIncludes err.message "OSM_ERROR_429" = false)
    (helig : splitEligible err = true)
    (hdepth : depth < 2) :
    (fetchRetailStoresBounded server env s w n e depth).1 =
      .ok ((absorbQuadrant
              (fetchRetailStoresBounded server env s w ((s + n) / 2) ((w + e) / 2) (depth + 1))).1 ++
           (absorbQuadrant
              (fetchRetailStoresBounded server env s ((w + e) / 2) ((s + n) / 2) e (depth + 1))).1 ++
           (absorbQuadrant
              (fetchRetailStoresBounded server env ((s + n) / 2) w n ((w + e) / 2) (depth + 1))).1 ++
           (absorbQuadrant
              (fetchRetailStoresBounded server env ((s + n) / 2) ((w + e) / 2) n e (depth + 1))).1) := by
  conv_lhs => rw [fetchRetailStoresBounded.eq_def]
  simp only [hres, h429, Bool.false_eq_true, if_false]
  rw [dif_pos ⟨helig, hdepth⟩]

/-- One-step unfolding of the bounded scan when no recovery is available:
 empty result above depth 0, rethrow at depth 0. -/
theorem fetch_fail_pair (server : Server) (env : ScanEnv) (s w n e : ℚ) (depth : Nat)
    (err : ErrObj) (t0 : Trace)
    (hres : executeOverpassQuery server env depth ⟨s, w, n, e⟩ 1 = (.error err, t0))
    (h429 : strIncludes err.message "OSM_ERROR_429" = false)
    (hnot : ¬(splitEligible err = true ∧ depth < 2)) :
    fetchRetailStoresBounded server env s w n e depth =
      ((if 0 < depth then .ok [] else .error err), .enter depth :: t0) := by
  conv_lhs => rw [fetchRetailStoresBounded.eq_def]
  simp only [hres, h429, Bool.false_eq_true, if_false]
  rw [dif_neg hnot]
  split <;> rfl

/-- **C1 (amended).** When the underlying query fails with an error whose
 message contains `OSM_ERROR_504`, `OSM_ERROR_502` or the substring
 `timeout` (a client-side fetch abort does *not* qualify — its message is
 the browser's abort text, see the counterexample) and `depth < 2`, the
 bounded scan splits the box at the midpoint latitude/longitude into the
 four quadrants SW, SE, NW, NE, recurses into each sequentially, pacing each
 successful quadrant with a 200 ms wait, and returns the concatenation of
 the quadrants' contributions, a failed quadrant contributing the empty
 list; when splitting is unavailable (error not split-eligible or maximum
 depth reached), a failing call returns the empty list at `depth > 0` and
 rethrows the error at `depth = 0`. -/
theorem claim1_gateway_split (server : Server) (env : ScanEnv) (s w n e : ℚ) (depth : Nat)
    (err : ErrObj)
    (hres : (executeOverpassQuery server env depth ⟨s, w, n, e⟩ 1).1 = .error err)
    (h429 : strIncludes err.message "OSM_ERROR_429" = false)
    (helig : splitEligible err = true)
    (hdepth : depth < 2) :
    ((fetchRetailStoresBounded server env s w n e depth).1 =
      .ok ((absorbQuadrant
              (fetchRetailStoresBounded server env s w ((s + n) / 2) ((w + e) / 2) (depth + 1))).1 ++
           (absorbQuadrant
              (fetchRetailStoresBounded server env s ((w + e) / 2) ((s + n) / 2) e (depth + 1))).1 ++
           (absorbQuadrant
              (fetchRetailStoresBounded server env ((s + n) / 2) w n ((w + e) / 2) (depth + 1))).1 ++
           (absorbQuadrant
              (fetchRetailStoresBounded server env ((s + n) / 2) ((w + e) / 2) n e (depth + 1))).1)) ∧
    (∀ l t, absorbQuadrant (.ok l, t) = (l, t ++ [.wait 200])) ∧
    (∀ er t, absorbQuadrant (.error er, t) = ([], t)) ∧
    (∀ s2 w2 n2 e2 depth2 err2,
      (executeOverpassQuery server env depth2 ⟨s2, w2, n2, e2⟩ 1).1 = .error err2 →
      strIncludes err2.message "OSM_ERROR_429" = false →
      (splitEligible err2 = false ∨ 2 ≤ depth2) →
      (0 < depth2 → (fetchRetailStoresBounded server env s2 w2 n2 e2 depth2).1 = .ok []) ∧
      (depth2 = 0 → (fetchRetailStoresBounded server env s2 w2 n2 e2 depth2).1 = .error err2)) := by
  refine ⟨fetch_split server env s w n e depth err hres h429 helig hdepth,
    fun l t => rfl, fun er t => rfl, ?_⟩
  intro s2 w2 n2 e2 depth2 err2 hres2 h4292 hdis
  have hnot : ¬(splitEligible err2 = true ∧ depth2 < 2) := by
    rcases hdis with h | h
    · simp [h]
    · omega
  obtain ⟨r2, t2, hpair⟩ : ∃ r2 t2, executeOverpassQuery server env depth2 ⟨s2, w2, n2, e2⟩ 1 =
      (r2, t2) := ⟨_, _, rfl⟩
  rw [hpair] at hres2
  simp only at hres2
  subst hres2
  have H := fetch_fail_pair server env s2 w2 n2 e2 depth2 err2 t2 hpair h4292 hnot
  constructor
  · intro hpos
    rw [H]
    simp [hpos]
  · intro hz
    subst hz
    rw [H]
    simp

/-- Witness for C1: the perpetual-504 endpoint at depth 0 on the scenario
 box satisfies every hypothesis of the amended claim. -/
theorem claim1_witness :
    (fetchRetailStoresBounded server504 env0 12.90 77.55 13.00 77.65 0).1 =
      .ok ((absorbQuadrant
              (fetchRetailStoresBounded server504 env0 12.90 77.55 ((12.90 + 13.00) / 2)
                ((77.55 + 77.65) / 2) 1)).1 ++
           (absorbQuadrant
              (fetchRetailStoresBounded server504 env0 12.90 ((77.55 + 77.65) / 2)
                ((12.90 + 13.00) / 2) 77.65 1)).1 ++
           (absorbQuadrant
              (fetchRetailStoresBounded server504 env0 ((12.90 + 13.00) / 2) 77.55 13.00
                ((77.55 + 77.65) / 2) 1)).1 ++
           (absorbQuadrant
              (fetchRetailStoresBounded server504 env0 ((12.90 + 13.00) / 2) ((77.55 + 77.65) / 2)
                13.00 77.65 1)).1) :=
  (claim1_gateway_split server504 env0 12.90 77.55 13.00 77.65 0 (osmErr 504)
    (by rw [exec504]) inc504_429 elig504 (by norm_num)).1

/-- Counterexample to C1 as stated: a scan whose every request exceeds the
 fetch timeout.  The exhausted retries rethrow the browser's `AbortError`,
 whose message does not contain `timeout`, so the depth-0 call raises the
 error without ever splitting (no recursion is entered) — the claim instead
 predicted a quadrant split returning a (possibly empty) concatenation. -/
theorem claim1_counterexample :
    (fetchRetailStoresBounded serverAbort env0 12.90 77.55 13.00 77.65 0).1 =
      .error ⟨"AbortError", "The user aborted a request."⟩ ∧
    depthsEntered (fetchRetailStoresBounded serverAbort env0 12.90 77.55 13.00 77.65 0).2 =
      [0] ∧
    (fetchRetailStoresBounded serverAbort env0 12.90 77.55 13.00 77.65 0).1 ≠ .ok [] := by
  have E := execAbort env0 0 ⟨12.90, 77.55, 13.00, 77.65⟩
  rw [show env0.abortMsg = "The user aborted a request." from rfl] at E
  have hnot : ¬(splitEligible ⟨"AbortError", "The user aborted a request."⟩ = true ∧ 0 < 2) := by
    simp [eligAbort]
  have H := fetch_fail_pair serverAbort env0 12.90 77.55 13.00 77.65 0
    ⟨"AbortError", "The user aborted a request."⟩ _ E incAbort_429 hnot
  refine ⟨?_, ?_, ?_⟩
  · rw [H]
    simp
  · rw [H]
    simp [depthsEntered, List.filterMap_cons]
  · rw [H]
    simp

/-! ## Village generator lemmas -/

theorem geoSeq_nil (c : Nat) : GeoSeq c [] := rfl

theorem geoSeq_cons {c : Nat} {v : Village} {l : List Village}
    (h1 : v.geocode = "KAV" ++ toString c) (h2 : GeoSeq (c + 1) l) : GeoSeq c (v :: l) := by
  unfold GeoSeq at h2 ⊢
  have hfun : (fun i => "KAV" ++ toString (c + 1 + i)) =
      ((fun i => "KAV" ++ toString (c + i)) ∘ Nat.succ) := by
    funext i
    simp only [Function.comp, Nat.succ_eq_add_one]
    have e : c + 1 + i = c + (i + 1) := by omega
    rw [e]
  rw [List.map_cons, h1, List.length_cons, List.range_succ_eq_map, List.map_cons, List.map_map,
    h2, hfun]
  simp

theorem geoSeq_append {c : Nat} {l1 l2 : List Village}
    (h1 : GeoSeq c l1) (h2 : GeoSeq (c + l1.length) l2) : GeoSeq c (l1 ++ l2) := by
  unfold GeoSeq at h1 h2 ⊢
  have hfun : (fun i => "KAV" ++ toString (c + l1.length + i)) =
      ((fun i => "KAV" ++ toString (c + i)) ∘ fun x => l1.length + x) := by
    funext i
    simp only [Function.comp]
    have e : c + l1.length + i = c + (l1.length + i) := by omega
    rw [e]
  rw [List.map_append, List.length_append, List.range_add, List.map_append, List.map_map, h1,
    h2, hfun]

theorem draw_counter (σ : Nat → ℚ) (st : GenState) : (draw σ st).2.counter = st.counter := rfl

theorem organicPoints_spec (M : MathOracle) (σ : Nat → ℚ) (a b c : ℚ) (s : Nat) :
    ∀ (l : List Nat) (st : GenState),
      (organicPoints M σ a b c s l st).1.length = l.length ∧
      (organicPoints M σ a b c s l st).2.counter = st.counter ∧
      (organicPoints M σ a b c s l st).2.vId = st.vId := by
  intro l
  induction l with
  | nil => intro st; exact ⟨rfl, rfl, rfl⟩
  | cons i rest ih =>
    intro st
    have h := ih (draw σ st).2
    simp only [organicPoints, List.length_cons]
    exact ⟨by rw [h.1], h.2.1, h.2.2⟩

theorem genOrganic_spec (M : MathOracle) (σ : Nat → ℚ) (lat lng r : ℚ) (st : GenState) :
    3 ≤ (generateOrganicPolygon M σ lat lng r st).1.length ∧
    (generateOrganicPolygon M σ lat lng r st).2.counter = st.counter ∧
    (generateOrganicPolygon M σ lat lng r st).2.vId = st.vId := by
  unfold generateOrganicPolygon
  have h := organicPoints_spec M σ lat lng r (6 + (⌊(draw σ st).1 * 4⌋).toNat)
    (List.range (6 + (⌊(draw σ st).1 * 4⌋).toNat)) (draw σ st).2
  refine ⟨?_, h.2.1, h.2.2⟩
  simp only [List.length_append, List.length_singleton, h.1, List.length_range]
  omega

theorem createVillage_result (M : MathOracle) (σ : Nat → ℚ) (name : String) (lat lng : ℚ)
    (tn dn : String) (st : GenState) :
    (createVillageFeature M σ name lat lng tn dn st).1 =
      some ⟨"village-" ++ toString st.vId, "KAV" ++ toString st.counter, name, tn, dn, lat, lng,
        (generateOrganicPolygon M σ lat lng 0.005 st).1⟩ := by
  have h := genOrganic_spec M σ lat lng 0.005 st
  have hval : isValidRing (generateOrganicPolygon M σ lat lng 0.005 st).1 = true := by
    simp only [isValidRing, decide_eq_true_eq]
    exact h.1
  simp only [createVillageFeature, hval, if_true]
  rw [h.2.1, h.2.2]

theorem createVillage_counter (M : MathOracle) (σ : Nat → ℚ) (name : String) (lat lng : ℚ)
    (tn dn : String) (st : GenState) :
    (createVillageFeature M σ name lat lng tn dn st).2.counter = st.counter + 1 := by
  have h := genOrganic_spec M σ lat lng 0.005 st
  have hval : isValidRing (generateOrganicPolygon M σ lat lng 0.005 st).1 = true := by
    simp only [isValidRing, decide_eq_true_eq]
    exact h.1
  simp only [createVillageFeature, hval, if_true, draw]
  rw [h.2.1]

theorem placeCurated_spec (M : MathOracle) (σ : Nat → ℚ) (t : TalukMeta) :
    ∀ (names : List String) (st : GenState),
      GeoSeq st.counter (placeCuratedVillages M σ t names st).1 ∧
      (placeCuratedVillages M σ t names st).2.counter =
        st.counter + (placeCuratedVillages M σ t names st).1.length ∧
      (∀ v ∈ (placeCuratedVillages M σ t names st).1,
        v.taluk = t.name ∧ lookupVillageLoc v.name = some (v.centerLat, v.centerLng)) ∧
      (∀ n ∈ names, ∀ loc, lookupVillageLoc n = some loc →
        ∃ v ∈ (placeCuratedVillages M σ t names st).1,
          v.name = n ∧ v.centerLat = loc.1 ∧ v.centerLng = loc.2 ∧ v.taluk = t.name) := by
  intro names
  induction names with
  | nil =>
    intro st
    refine ⟨geoSeq_nil _, by simp [placeCuratedVillages], by simp [placeCuratedVillages], ?_⟩
    intro n hn
    simp at hn
  | cons n rest ih =>
    intro st
    cases hloc : lookupVillageLoc n with
    | none =>
      have h := ih st
      refine ⟨?_, ?_, ?_, ?_⟩
      · simpa only [placeCuratedVillages, hloc] using h.1
      · simpa only [placeCuratedVillages, hloc] using h.2.1
      · simpa only [placeCuratedVillages, hloc] using h.2.2.1
      · intro m hm loc hml
        rcases List.mem_cons.mp hm with rfl | hm2
        · rw [hml] at hloc; exact absurd hloc (by simp)
        · have := h.2.2.2 m hm2 loc hml
          simpa only [placeCuratedVillages, hloc] using this
    | some loc =>
      have hc := createVillage_result M σ n loc.1 loc.2 t.name t.district st
      have hcc := createVillage_counter M σ n loc.1 loc.2 t.name t.district st
      have h := ih (createVillageFeature M σ n loc.1 loc.2 t.name t.district st).2
      refine ⟨?_, ?_, ?_, ?_⟩
      · simp only [placeCuratedVillages, hloc, hc]
        refine geoSeq_cons rfl ?_
        rw [← hcc]
        exact h.1
      · simp only [placeCuratedVillages, hloc, hc, List.length_cons]
        rw [h.2.1, hcc]
        omega
      · simp only [placeCuratedVillages, hloc, hc]
        intro v hv
        rcases List.mem_cons.mp hv with rfl | hv2
        · exact ⟨rfl, by simpa using hloc⟩
        · exact h.2.2.1 v hv2
      · intro m hm loc2 hml
        rcases List.mem_cons.mp hm with rfl | hm2
        · have hl2 : loc2 = loc := by
            rw [hml] at hloc
            simpa using hloc
          subst hl2
          refine ⟨⟨"village-" ++ toString st.vId, "KAV" ++ toString st.counter, m, t.name,
            t.district, loc2.1, loc2.2,
            (generateOrganicPolygon M σ loc2.1 loc2.2 0.005 st).1⟩, ?_, rfl, rfl, rfl, rfl⟩
          simp only [placeCuratedVillages, hloc, hc]
          exact List.mem_cons_self _ _
        · obtain ⟨v, hv, hrest⟩ := h.2.2.2 m hm2 loc2 hml
          refine ⟨v, ?_, hrest⟩
          simp only [placeCuratedVillages, hloc, hc]
          exact List.mem_cons_of_mem _ hv

theorem fillRandom_spec (M : MathOracle) (σ : Nat → ℚ) (t : TalukMeta)
    (minLat maxLat minLng maxLng : ℚ) :
    ∀ (fuel count : Nat) (st : GenState),
      GeoSeq st.counter
        (fillRandomVillages M σ t minLat maxLat minLng maxLng count fuel st).1 ∧
      (fillRandomVillages M σ t minLat maxLat minLng maxLng count fuel st).2.counter =
        st.counter +
          (fillRandomVillages M σ t minLat maxLat minLng maxLng count fuel st).1.length ∧
      ∀ v ∈ (fillRandomVillages M σ t minLat maxLat minLng maxLng count fuel st).1,
        v.taluk = t.name ∧ isPointInPolygon (v.centerLng, v.centerLat) t.coords = true := by
  intro fuel
  induction fuel with
  | zero =>
    intro count st
    exact ⟨geoSeq_nil _, by simp [fillRandomVillages], by simp [fillRandomVillages]⟩
  | succ fuel ih =>
    intro count st
    by_cases hcnt : count < 35
    · simp only [fillRandomVillages, if_pos hcnt, createVillage_result]
      split
      · rename_i hin
        set a := draw σ st with ha
        set b := draw σ a.2 with hb
        set c := draw σ b.2 with hc0
        set d := draw σ c.2 with hd0
        set nm := villagePrefixList.getD (⌊c.1 * (villagePrefixList.length : ℚ)⌋).toNat "" ++
          villageSuffixList.getD (⌊d.1 * (villageSuffixList.length : ℚ)⌋).toNat "" with hnm
        set la := minLat + a.1 * (maxLat - minLat) with hla
        set ln := minLng + b.1 * (maxLng - minLng) with hln
        have hcc := createVillage_counter M σ nm la ln t.name t.district d.2
        have hdc : d.2.counter = st.counter := rfl
        have h := ih (count + 1) (createVillageFeature M σ nm la ln t.name t.district d.2).2
        rw [hcc, hdc] at h
        refine ⟨geoSeq_cons rfl h.1, ?_, ?_⟩
        · simp only [List.length_cons]
          rw [h.2.1]
          omega
        · intro v hv
          rcases List.mem_cons.mp hv with rfl | hv2
          · exact ⟨rfl, hin⟩
          · exact h.2.2 v hv2
      · exact ih count _
    · simp only [fillRandomVillages, if_neg hcnt]
      exact ⟨geoSeq_nil _, by simp, by simp⟩

theorem genTaluk_spec (M : MathOracle) (σ : Nat → ℚ) (t : TalukMeta) (st : GenState) :
    GeoSeq st.counter (genTalukVillages M σ t st).1 ∧
    (genTalukVillages M σ t st).2.counter =
      st.counter + (genTalukVillages M σ t st).1.length ∧
    (∀ v ∈ (genTalukVillages M σ t st).1,
      v.taluk = t.name ∧
      (lookupVillageLoc v.name = some (v.centerLat, v.centerLng) ∨
        isPointInPolygon (v.centerLng, v.centerLat) t.coords = true)) ∧
    (∀ n ∈ lookupVillageNames t.name, ∀ loc, lookupVillageLoc n = some loc →
      ∃ v ∈ (genTalukVillages M σ t st).1,
        v.name = n ∧ v.centerLat = loc.1 ∧ v.centerLng = loc.2 ∧ v.taluk = t.name) := by
  have hp := placeCurated_spec M σ t (lookupVillageNames t.name) st
  have hf := fillRandom_spec M σ t (listMinQ (t.coords.map (fun c => c.2)))
    (listMaxQ (t.coords.map (fun c => c.2))) (listMinQ (t.coords.map (fun c => c.1)))
    (listMaxQ (t.coords.map (fun c => c.1))) 400
    (placeCuratedVillages M σ t (lookupVillageNames t.name) st).1.length
    (placeCuratedVillages M σ t (lookupVillageNames t.name) st).2
  rw [hp.2.1] at hf
  simp only [genTalukVillages]
  refine ⟨geoSeq_append hp.1 hf.1, ?_, ?_, ?_⟩
  · simp only [List.length_append]
    rw [hf.2.1]
    omega
  · intro v hv
    rcases List.mem_append.mp hv with hv1 | hv2
    · have := hp.2.2.1 v hv1
      exact ⟨this.1, Or.inl this.2⟩
    · have := hf.2.2 v hv2
      exact ⟨this.1, Or.inr this.2⟩
  · intro n hn loc hl
    obtain ⟨v, hv, hrest⟩ := hp.2.2.2 n hn loc hl
    exact ⟨v, List.mem_append_left _ hv, hrest⟩

theorem genAll_spec (M : MathOracle) (σ : Nat → ℚ) :
    ∀ (ts : List TalukMeta) (st : GenState),
      GeoSeq st.counter (genAllVillages M σ ts st).1 ∧
      (genAllVillages M σ ts st).2.counter =
        st.counter + (genAllVillages M σ ts st).1.length ∧
      (∀ v ∈ (genAllVillages M σ ts st).1, ∃ t ∈ ts,
        v.taluk = t.name ∧
        (lookupVillageLoc v.name = some (v.centerLat, v.centerLng) ∨
          isPointInPolygon (v.centerLng, v.centerLat) t.coords = true)) ∧
      (∀ t ∈ ts, ∀ n ∈ lookupVillageNames t.name, ∀ loc, lookupVillageLoc n = some loc →
        ∃ v ∈ (genAllVillages M σ ts st).1,
          v.name = n ∧ v.centerLat = loc.1 ∧ v.centerLng = loc.2 ∧ v.taluk = t.name) := by
  intro ts
  induction ts with
  | nil =>
    intro st
    refine ⟨geoSeq_nil _, by simp [genAllVillages], by simp [genAllVillages], ?_⟩
    intro t ht
    simp at ht
  | cons t rest ih =>
    intro st
    have hg := genTaluk_spec M σ t st
    have hr := ih (genTalukVillages M σ t st).2
    rw [hg.2.1] at hr
    simp only [genAllVillages]
    refine ⟨geoSeq_append hg.1 hr.1, ?_, ?_, ?_⟩
    · simp only [List.length_append]
      rw [hr.2.1]
      omega
    · intro v hv
      rcases List.mem_append.mp hv with hv1 | hv2
      · obtain ⟨h1, h2⟩ := hg.2.2.1 v hv1
        exact ⟨t, List.mem_cons_self _ _, h1, h2⟩
      · obtain ⟨u, hu, hrest⟩ := hr.2.2.1 v hv2
        exact ⟨u, List.mem_cons_of_mem _ hu, hrest⟩
    · intro u hu n hn loc hl
      rcases List.mem_cons.mp hu with rfl | hu2
      · obtain ⟨v, hv, hrest⟩ := hg.2.2.2 n hn loc hl
        exact ⟨v, List.mem_append_left _ hv, hrest⟩
      · obtain ⟨v, hv, hrest⟩ := hr.2.2.2 u hu2 n hn loc hl
        exact ⟨v, List.mem_append_right _ hv, hrest⟩

/-- The curated centre of 'Srigandhada Kaval' (lat 12.990, lng 77.500) lies
 outside the Bengaluru North taluk polygon under the source's ray-cast. -/
theorem pipBlrNorthFails :
    isPointInPolygon (77.500, 12.990) coordsBlrNorth = false := by
  norm_num [isPointInPolygon, rayCastStep, coordsBlrNorth, List.zip, List.zipWith,
    List.dropLast]

/-- **C8.** For every platform oracle and random stream, the generated
 villages carry the geocodes `KAV1001, KAV1002, …` in order — the counter
 starts at 1001 and is bumped exactly once per successfully created village
 across the whole dataset (the final counter equals 1001 plus the total
 village count, so no increment is skipped or duplicated across taluks). -/
theorem claim8_geocode_sequence (M : MathOracle) (σ : Nat → ℚ) :
    GeoSeq 1001 (generatedVillages M σ) ∧
    (genAllVillages M σ talukDataRaw ⟨0, 1001, 0⟩).2.counter =
      1001 + (generatedVillages M σ).length := by
  have h := genAll_spec M σ talukDataRaw ⟨0, 1001, 0⟩
  exact ⟨h.1, h.2.1⟩

/-- **C2 (amended).** Every village of the generated collection either is a
 curated gazetteer placement (its name resolves in the curated location
 table to exactly its centre — such placements skip the containment check)
 or its centre passes the ray-cast point-in-polygon test against its owning
 taluk's polygon; the randomly sampled villages all fall in the second
 class by rejection sampling. -/
theorem claim2_village_containment (M : MathOracle) (σ : Nat → ℚ) :
    (generatedVillages M σ).all (fun v =>
      (lookupVillageLoc v.name == some (v.centerLat, v.centerLng)) ||
      isPointInPolygon (v.centerLng, v.centerLat) (talukCoords v.taluk)) = true := by
  rw [List.all_eq_true]
  intro v hv
  obtain ⟨t, ht, htn, hd⟩ := (genAll_spec M σ talukDataRaw ⟨0, 1001, 0⟩).2.2.1 v hv
  have hco : talukCoords v.taluk = t.coords := by
    rw [htn]
    simp only [talukDataRaw] at ht
    fin_cases ht <;> rfl
  rcases hd with h | h
  · rw [h]
    simp
  · rw [hco, h]
    simp

/-- Counterexample to C2 as stated: for the reference oracle and stream, the
 generated collection contains the curated village 'Srigandhada Kaval'
 (Bengaluru North), whose centre fails the ray-cast point-in-polygon test
 against its owning taluk's polygon — curated placements are trusted and
 never checked. -/
theorem claim2_counterexample :
    (generatedVillages oracle0 stream0).any (fun v =>
      (v.name == "Srigandhada Kaval") &&
      !isPointInPolygon (v.centerLng, v.centerLat) (talukCoords v.taluk)) = true := by
  have h := (genAll_spec oracle0 stream0 talukDataRaw ⟨0, 1001, 0⟩).2.2.2
  have ht : (⟨"Bengaluru North", "Bengaluru Urban", coordsBlrNorth⟩ : TalukMeta) ∈
      talukDataRaw := by
    simp [talukDataRaw]
  have hn : "Srigandhada Kaval" ∈ lookupVillageNames "Bengaluru North" := by decide
  have hl : lookupVillageLoc "Srigandhada Kaval" = some (12.990, 77.500) := rfl
  obtain ⟨v, hv, hname, hlat, hlng, htaluk⟩ :=
    h _ ht "Srigandhada Kaval" hn (12.990, 77.500) hl
  rw [List.any_eq_true]
  refine ⟨v, hv, ?_⟩
  rw [hname, htaluk, hlat, hlng,
    show talukCoords (⟨"Bengaluru North", "Bengaluru Urban", coordsBlrNorth⟩ : TalukMeta).name =
      coordsBlrNorth from rfl]
  simp [pipBlrNorthFails]

/-- **C3 (code bug).** Exporting a collection to CSV and importing the
 document back (merged by geocode) does not restore the pre-export state:
 the naive comma-split of the import breaks the quoted JSON geometry cell at
 its first comma, so the merged feature gains a spurious `geometry`
 attribute holding only the fragment `"{""type"":""Polygon""` — which does
 not parse back to a polygon — and its attribute bag differs from the
 pre-export one. -/
theorem claim3_roundtrip_failure :
    rtResult.map (fun f => f.properties) =
      [[("geocode", .str "KAX1"), ("name", .str "Alpha"),
        ("geometry", .str "\"\x7b\"\"type\"\":\"\"Polygon\"\"")]] ∧
    rtResult.map (fun f => f.properties) ≠ [rtFeature.properties] ∧
    propLookup ((rtResult.headD rtFeature).properties) "geometry" =
      some (.str "\"\x7b\"\"type\"\":\"\"Polygon\"\"") := by
  refine ⟨by decide, by decide, by decide⟩

end GeoPulse
